import Mathlib

/-!
Shallow embedding of the SatelliteVision client core:

* `VisualizationSection.tsx` (orchestrator): React state variables
  `activeTab`, `isLoading`, `analysisResult`, `error`, the event handler
  `handleAOISelected`, and the view dispatcher `renderContent`.
* `MapAOISelector.tsx` (drawing controller): refs `areaKm2`, `rectLayer`,
  `startPoint`, `isDrawing`, map dragging, and the handlers `startDrawing`,
  `updateDrawing`, `finishDrawing`.

Coordinates and numeric result fields are modelled as rationals; the area
value, which goes through `Math.cos`, is modelled as a real number.
JavaScript float arithmetic is modelled as exact arithmetic.
-/

/-- A map coordinate, as produced by the map engine (`L.LatLng`). -/
structure LatLng where
  lat : ℚ
  lng : ℚ
deriving DecidableEq

/-- The `AOIBounds` interface of `VisualizationSection.tsx`:
`{ north, south, east, west }` in degrees. -/
structure AOIBounds where
  north : ℚ
  south : ℚ
  east : ℚ
  west : ℚ
deriving DecidableEq

/-- `summary.categories` of an `AnalysisResult`. -/
structure CategoryCounts where
  Deforestation : ℚ
  Urban : ℚ
  Agriculture : ℚ
deriving DecidableEq

/-- `summary` of an `AnalysisResult`. -/
structure AnalysisSummary where
  percent_change : ℚ
  confidence_pct : ℚ
  categories : CategoryCounts
deriving DecidableEq

/-- `overlays` of an `AnalysisResult` (`class_png` is optional). -/
structure AnalysisOverlays where
  class_png : Option String
deriving DecidableEq

/-- The `AnalysisResult` interface exported by `VisualizationSection.tsx`. -/
structure AnalysisResult where
  summary : AnalysisSummary
  overlays : AnalysisOverlays
  beforeImage : Option String
  afterImage : Option String
deriving DecidableEq

/-- The three tab identifiers used by `VisualizationSection.tsx`
(the strings "aoi", "imagery", "detection"). -/
inductive Tab where
  | aoi
  | imagery
  | detection
deriving DecidableEq

/-- The orchestrator's React state:
`activeTab`, `isLoading`, `analysisResult`, `error`. -/
structure VizState where
  activeTab : Tab
  isLoading : Bool
  analysisResult : Option AnalysisResult
  error : Option String
deriving DecidableEq

/-- Externally visible side effects of `handleAOISelected`, in order:
a tab auto-switch (`setActiveTab` called from inside the handler) and an
outbound POST whose JSON body is the serialized bounds. -/
inductive OrchEffect where
  | autoSwitch (t : Tab)
  | postRequest (payload : AOIBounds)
deriving DecidableEq

/-- The spec's tagged `AnalysisState`, derived from the orchestrator's three
state variables (see `analysisStateOf`). -/
inductive AnalysisState where
  | idle
  | loading
  | error (message : String)
  | success (result : AnalysisResult)
deriving DecidableEq

/-- Derives the spec's tagged `AnalysisState` from the raw state variables,
with the same priority `renderContent` uses: a set `error` wins, then
`isLoading`, then a present `analysisResult`, else idle. -/
def analysisStateOf (s : VizState) : AnalysisState :=
  match s.error with
  | some m => AnalysisState.error m
  | none =>
    if s.isLoading then AnalysisState.loading
    else
      match s.analysisResult with
      | some r => AnalysisState.success r
      | none => AnalysisState.idle

/-- The synchronous phase of `handleAOISelected` (everything before the first
`await`): for a non-null payload it sets `isLoading`, clears the result and
the error, switches the tab to imagery and issues the fetch; for a null
payload it only clears the result and the error. Returns the updated state
and the list of emitted effects. -/
def handleAOISelectedStart (s : VizState) (bounds : Option AOIBounds) :
    VizState × List OrchEffect :=
  match bounds with
  | some b =>
    ({ s with
        isLoading := true
        analysisResult := none
        error := none
        activeTab := Tab.imagery },
      [OrchEffect.autoSwitch Tab.imagery, OrchEffect.postRequest b])
  | none => ({ s with analysisResult := none, error := none }, [])

/-- Result of `await response.json()`: either the body fails to parse as
JSON (the rejection's message is recorded), or it parses; a parsed body is
described by its `detail` field when that field is a string, together with
the value obtained by treating the JSON as an `AnalysisResult` (the source
performs no runtime validation of that cast). -/
inductive Body where
  | malformed (parseMsg : String)
  | parsed (detail : Option String) (value : AnalysisResult)
deriving DecidableEq

/-- How the issued fetch settles: a transport-level rejection (its message),
or an HTTP response with `response.ok` and a body. -/
inductive FetchOutcome where
  | transportFailure (msg : String)
  | response (ok : Bool) (body : Body)
deriving DecidableEq

/-- The fallback error message of `handleAOISelected`. -/
def unknownApiErrorMsg : String := "An unknown API error occurred."

/-- The message thrown for a non-2xx response:
`err.detail || "An unknown API error occurred."` — JavaScript truthiness
makes an absent and an empty-string detail both fall back. -/
def errorMessageFor (detail : Option String) : String :=
  match detail with
  | some d => if d = "" then unknownApiErrorMsg else d
  | none => unknownApiErrorMsg

/-- The asynchronous phase of `handleAOISelected`: the continuation after
the fetch settles, covering the try/catch/finally. On a 2xx response whose
body parses, the result is stored; every other path stores a message via
the catch block; the finally block always clears `isLoading`. -/
def resolveRequest (s : VizState) (o : FetchOutcome) : VizState :=
  match o with
  | FetchOutcome.transportFailure msg =>
    { s with error := some msg, isLoading := false }
  | FetchOutcome.response ok body =>
    if ok then
      match body with
      | Body.malformed parseMsg =>
        { s with error := some parseMsg, isLoading := false }
      | Body.parsed _ v =>
        { s with analysisResult := some v, isLoading := false }
    else
      match body with
      | Body.malformed parseMsg =>
        { s with error := some parseMsg, isLoading := false }
      | Body.parsed detail _ =>
        { s with error := some (errorMessageFor detail), isLoading := false }

/-- A full run of `handleAOISelected(bounds)` for a non-null payload: the
synchronous phase followed by the settlement of its request. -/
def handleAOISelectedRun (s : VizState) (b : AOIBounds) (o : FetchOutcome) :
    VizState :=
  resolveRequest (handleAOISelectedStart s (some b)).1 o

/-- What `renderContent` can return. -/
inductive View where
  | errorView (message : String)
  | loadingView
  | aoiView
  | imageryView (result : Option AnalysisResult)
  | detectionView (result : Option AnalysisResult)
deriving DecidableEq

/-- The tab dispatch at the end of `renderContent` (its switch statement). -/
def renderSwitch (s : VizState) : View :=
  match s.activeTab with
  | Tab.aoi => View.aoiView
  | Tab.imagery => View.imageryView s.analysisResult
  | Tab.detection => View.detectionView s.analysisResult

/-- `renderContent` of `VisualizationSection.tsx`: on any non-AOI tab a set
`error` renders the error view and otherwise `isLoading` renders the loading
view; then the switch on `activeTab` dispatches the tab's own view. -/
def renderContent (s : VizState) : View :=
  if s.activeTab ≠ Tab.aoi then
    match s.error with
    | some m => View.errorView m
    | none => if s.isLoading then View.loadingView else renderSwitch s
  else renderSwitch s

/-- The result carried by an `AnalysisState`, or none. -/
def resultOf (a : AnalysisState) : Option AnalysisResult :=
  match a with
  | AnalysisState.success r => some r
  | _ => none

/-- Modelled from the spec: rule 3 of the view-selection rule of spec
section 4.4 — dispatch by tab, the non-AOI views fed the result or null. -/
def tabDispatch (tab : Tab) (a : AnalysisState) : View :=
  match tab with
  | Tab.aoi => View.aoiView
  | Tab.imagery => View.imageryView (resultOf a)
  | Tab.detection => View.detectionView (resultOf a)

/-- Modelled from the spec: the view-selection rule of spec section 4.4,
written over the pair `(activeTab, analysisState)` as the spec words it
(rule 1: non-AOI tab and Error shows the error view; rule 2: non-AOI tab
and Loading shows the loading view; rule 3: dispatch by tab), to be
compared with `renderContent`. -/
def viewFor (tab : Tab) (a : AnalysisState) : View :=
  match a with
  | AnalysisState.error m =>
    if tab ≠ Tab.aoi then View.errorView m else tabDispatch tab a
  | AnalysisState.loading =>
    if tab ≠ Tab.aoi then View.loadingView else tabDispatch tab a
  | _ => tabDispatch tab a

/-- `L.latLngBounds(a, b)`: the rectangle spanned by two corner points;
west/east are the smaller/larger longitude, south/north the smaller/larger
latitude. -/
def latLngBoundsOf (a b : LatLng) : AOIBounds :=
  { north := max a.lat b.lat
    south := min a.lat b.lat
    east := max a.lng b.lng
    west := min a.lng b.lng }

/-- `Number(y.toFixed(2))`: rounding to two decimal places. -/
noncomputable def round2 (y : ℝ) : ℝ := ((round (y * 100) : ℤ) : ℝ) / 100

/-- The raw area product computed in `finishDrawing`:
`dLatKm * dLngKm`, with `dLatKm = |north - south| * 111` and
`dLngKm = |east - west| * 111 * cos(center.lat * PI / 180)`, where the
Leaflet bounds center latitude is `(south + north) / 2`. -/
noncomputable def rawAreaKm2 (b : AOIBounds) : ℝ :=
  (|(b.north : ℝ) - (b.south : ℝ)| * 111) *
    (|(b.east : ℝ) - (b.west : ℝ)| * 111 *
      Real.cos (((b.south : ℝ) + (b.north : ℝ)) / 2 * Real.pi / 180))

/-- The committed area display value of `finishDrawing`:
`Number((dLatKm * dLngKm).toFixed(2))`. -/
noncomputable def areaKm2Of (b : AOIBounds) : ℝ := round2 (rawAreaKm2 b)

/-- Modelled from the spec: the AreaCalculator formula of spec section 4.2,
written from the spec text (`dLatKm = |north - south| * 111`, `dLngKm =
|east - west| * 111 * cos(centerLat * PI/180)`, `centerLat = (north +
south) / 2`, `area = round(dLatKm * dLngKm, 2 decimal places)`), to be
compared with the source's `areaKm2Of`. -/
noncomputable def areaSpec (b : AOIBounds) : ℝ :=
  round2 ((|(b.north : ℝ) - (b.south : ℝ)| * 111) *
    (|(b.east : ℝ) - (b.west : ℝ)| * 111 *
      Real.cos (((b.north : ℝ) + (b.south : ℝ)) / 2 * Real.pi / 180)))

/-- The drawing controller's state in `MapAOISelector.tsx`: the `areaKm2`
React state, the `rectLayer`, `startPoint` and `isDrawing` refs, and
whether map dragging (panning) is enabled. -/
structure MapState where
  areaKm2 : Option ℝ
  rectLayer : Option AOIBounds
  startPoint : Option LatLng
  isDrawing : Bool
  draggingEnabled : Bool

/-- `startDrawing(latlng)`: unconditionally enters drawing mode, records
the start point, disables dragging, removes any existing rectangle layer,
clears the area display, and emits `onAOISelected(null)` (the returned
list holds the emitted `AOISelected` payloads, in order). -/
def startDrawing (m : MapState) (p : LatLng) : MapState × List (Option AOIBounds) :=
  ({ m with
      isDrawing := true
      startPoint := some p
      draggingEnabled := false
      rectLayer := none
      areaKm2 := none },
    [none])

/-- `updateDrawing(latlng)`: only effective while drawing with a recorded
start point; replaces the preview rectangle with the bounds spanned by the
start point and the current point. No event is emitted. -/
def updateDrawing (m : MapState) (p : LatLng) : MapState :=
  if m.isDrawing then
    match m.startPoint with
    | some s => { m with rectLayer := some (latLngBoundsOf s p) }
    | none => m
  else m

/-- `finishDrawing(latlng)`: only effective while drawing with a recorded
start point. Leaves drawing mode and re-enables dragging; if the spanned
rectangle is degenerate (`west == east` or `south == north`) the preview
layer is removed and nothing is emitted, otherwise the rounded area is
committed and `onAOISelected(bounds)` is emitted. -/
noncomputable def finishDrawing (m : MapState) (p : LatLng) : MapState × List (Option AOIBounds) :=
  match m.startPoint with
  | none => (m, [])
  | some start =>
    if m.isDrawing then
      let m1 : MapState := { m with isDrawing := false, draggingEnabled := true }
      let b := latLngBoundsOf start p
      if b.west = b.east ∨ b.south = b.north then
        ({ m1 with rectLayer := none }, [])
      else
        ({ m1 with areaKm2 := some (areaKm2Of b) }, [some b])
    else (m, [])

/-- The tab auto-switches among a list of handler effects. -/
def autoSwitches (effects : List OrchEffect) : List Tab :=
  effects.filterMap fun e =>
    match e with
    | OrchEffect.autoSwitch t => some t
    | _ => none

/-- The outbound request payloads among a list of handler effects. -/
def postedPayloads (effects : List OrchEffect) : List AOIBounds :=
  effects.filterMap fun e =>
    match e with
    | OrchEffect.postRequest b => some b
    | _ => none

/-- The orchestrator state while a request is in flight: imagery tab,
loading set, result and error cleared (reached right after
`handleAOISelectedStart` on a non-null payload). -/
def loadingState : VizState :=
  { activeTab := Tab.imagery, isLoading := true, analysisResult := none, error := none }

/-- The orchestrator's initial state: AOI tab, nothing loaded. -/
def idleState : VizState :=
  { activeTab := Tab.aoi, isLoading := false, analysisResult := none, error := none }

/-- A concrete analysis result used by closed witnesses. -/
def sampleResult : AnalysisResult :=
  { summary :=
      { percent_change := 12
        confidence_pct := 90
        categories := { Deforestation := 1, Urban := 2, Agriculture := 3 } }
    overlays := { class_png := some "overlay.png" }
    beforeImage := none
    afterImage := none }

/-- A concrete drawing-controller state in the middle of a draw, used by
closed witnesses: drawing from start point (lat 1, lng 2). -/
def drawingMapState : MapState :=
  { areaKm2 := none
    rectLayer := some { north := 2, south := 1, east := 2, west := 1 }
    startPoint := some { lat := 1, lng := 2 }
    isDrawing := true
    draggingEnabled := false }

/-- The bounds of spec concrete scenario 1 (the Pune data area sample). -/
def puneBounds : AOIBounds :=
  { north := 18.52, south := 18.50, east := 73.82, west := 73.80 }

/-- C1 counterexample: from the prior state Loading (a request in flight),
handling AOISelected(null) does not reach Idle — the loading flag is left
set, so the state is still Loading. -/
theorem aoiNull_from_loading_not_idle :
    analysisStateOf (handleAOISelectedStart loadingState none).1 = AnalysisState.loading ∧
    analysisStateOf (handleAOISelectedStart loadingState none).1 ≠ AnalysisState.idle := by
  constructor <;> decide

/-- C1 (amended): handling AOISelected(null) always clears the result and
the error; from any prior state with no request in flight (Idle, Error,
Success) the resulting AnalysisState is Idle, but from Loading the loading
flag is untouched and the state remains Loading. -/
theorem aoiNull_clears_result_and_error (s : VizState) :
    (handleAOISelectedStart s none).1.analysisResult = none ∧
    (handleAOISelectedStart s none).1.error = none ∧
    (s.isLoading = false →
      analysisStateOf (handleAOISelectedStart s none).1 = AnalysisState.idle) ∧
    (s.isLoading = true →
      analysisStateOf (handleAOISelectedStart s none).1 = AnalysisState.loading) := by
  refine ⟨rfl, rfl, ?_, ?_⟩ <;> intro h <;>
    simp [handleAOISelectedStart, analysisStateOf, h]

/-- C1 witness: at the concrete initial state, AOISelected(null) yields
Idle. -/
theorem aoiNull_clears_result_and_error_witness :
    analysisStateOf (handleAOISelectedStart idleState none).1 = AnalysisState.idle :=
  (aoiNull_clears_result_and_error idleState).2.2.1 rfl

/-- C2: handling AOISelected(bounds) auto-switches the active tab to
Imagery exactly once, leaves the tab at Imagery, puts the analysis state
into Loading, and posts exactly one request whose payload is the bounds;
handling AOISelected(null) performs no auto-switch and posts nothing. -/
theorem aoiBounds_switches_and_posts_once (s : VizState) (b : AOIBounds) :
    autoSwitches (handleAOISelectedStart s (some b)).2 = [Tab.imagery] ∧
    (handleAOISelectedStart s (some b)).1.activeTab = Tab.imagery ∧
    analysisStateOf (handleAOISelectedStart s (some b)).1 = AnalysisState.loading ∧
    postedPayloads (handleAOISelectedStart s (some b)).2 = [b] ∧
    autoSwitches (handleAOISelectedStart s none).2 = [] ∧
    postedPayloads (handleAOISelectedStart s none).2 = [] := by
  refine ⟨rfl, rfl, rfl, rfl, rfl, rfl⟩

/-- C7: `renderContent` agrees with the spec's view-selection rule over the
pair (activeTab, derived AnalysisState): on a non-AOI tab an error wins,
then loading, and otherwise the tab's own view is dispatched, fed the
result or null; the AOI tab always shows the drawing surface. -/
theorem renderContent_matches_viewFor (s : VizState) :
    renderContent s = viewFor s.activeTab (analysisStateOf s) := by
  rcases s with ⟨tab, loading, result, err⟩
  cases tab <;> cases loading <;> cases err <;> cases result <;> rfl

/-- C8: however the issued request settles (transport failure, 2xx or
non-2xx response, body parsed or malformed), the handler ends with the
loading flag cleared and the analysis state is exactly an Error or a
Success — never still Loading. -/
theorem request_settlement_never_loading (s : VizState) (b : AOIBounds) (o : FetchOutcome) :
    (handleAOISelectedRun s b o).isLoading = false ∧
    ((∃ m, analysisStateOf (handleAOISelectedRun s b o) = AnalysisState.error m) ∨
      (∃ r, analysisStateOf (handleAOISelectedRun s b o) = AnalysisState.success r)) ∧
    analysisStateOf (handleAOISelectedRun s b o) ≠ AnalysisState.loading := by
  rcases o with msg | ⟨ok, body⟩
  · exact ⟨rfl, Or.inl ⟨msg, rfl⟩, by simp [handleAOISelectedRun, handleAOISelectedStart,
      resolveRequest, analysisStateOf]⟩
  · cases ok <;> rcases body with parseMsg | ⟨detail, v⟩
    · exact ⟨rfl, Or.inl ⟨parseMsg, rfl⟩, by simp [handleAOISelectedRun,
        handleAOISelectedStart, resolveRequest, analysisStateOf]⟩
    · exact ⟨rfl, Or.inl ⟨errorMessageFor detail, rfl⟩, by simp [handleAOISelectedRun,
        handleAOISelectedStart, resolveRequest, analysisStateOf]⟩
    · exact ⟨rfl, Or.inl ⟨parseMsg, rfl⟩, by simp [handleAOISelectedRun,
        handleAOISelectedStart, resolveRequest, analysisStateOf]⟩
    · exact ⟨rfl, Or.inr ⟨v, rfl⟩, by simp [handleAOISelectedRun,
        handleAOISelectedStart, resolveRequest, analysisStateOf]⟩

/-- C9: every pointer-down, from any controller state, removes the existing
rectangle layer, clears the area display, disables map dragging, enters
drawing mode with the new start point, and emits AOISelected(null). -/
theorem startDrawing_preempts_previous (m : MapState) (p : LatLng) :
    (startDrawing m p).1.rectLayer = none ∧
    (startDrawing m p).1.areaKm2 = none ∧
    (startDrawing m p).1.draggingEnabled = false ∧
    (startDrawing m p).1.isDrawing = true ∧
    (startDrawing m p).1.startPoint = some p ∧
    (startDrawing m p).2 = [none] :=
  ⟨rfl, rfl, rfl, rfl, rfl, rfl⟩

/-- C3: releasing the pointer while drawing, when the spanned rectangle is
degenerate (equal latitudes or equal longitudes of the two corners),
removes the preview layer, leaves drawing mode, re-enables dragging, and
emits no AOISelected event — a silent no-op. -/
theorem finishDrawing_degenerate_discards (m : MapState) (p s : LatLng)
    (hdraw : m.isDrawing = true) (hstart : m.startPoint = some s)
    (hdeg : s.lat = p.lat ∨ s.lng = p.lng) :
    finishDrawing m p =
      ({ m with isDrawing := false, draggingEnabled := true, rectLayer := none }, []) := by
  have hcond : (latLngBoundsOf s p).west = (latLngBoundsOf s p).east ∨
      (latLngBoundsOf s p).south = (latLngBoundsOf s p).north := by
    rcases hdeg with h | h
    · right
      simp [latLngBoundsOf, h]
    · left
      simp [latLngBoundsOf, h]
  simp [finishDrawing, hstart, hdraw, hcond]

/-- C3 witness: a concrete degenerate draw (both corners at latitude 1)
is discarded with no event. -/
theorem finishDrawing_degenerate_discards_witness :
    finishDrawing drawingMapState { lat := 1, lng := 5 } =
      ({ drawingMapState with
          isDrawing := false, draggingEnabled := true, rectLayer := none }, []) :=
  finishDrawing_degenerate_discards drawingMapState { lat := 1, lng := 5 }
    { lat := 1, lng := 2 } rfl rfl (Or.inl rfl)

/-- C5: the committed area is deterministic, and completing a draw is
symmetric in which corner is the start and which is the end: from the same
controller state, finishing a draw started at s with the pointer at e
commits the same areaKm2 display value and emits the same AOISelected
events as finishing a draw started at e with the pointer at s. -/
theorem finishDrawing_swap_symmetric :
    (∀ b : AOIBounds, areaKm2Of b = areaKm2Of b) ∧
    ∀ (m : MapState) (s e : LatLng),
      (finishDrawing { m with isDrawing := true, startPoint := some s } e).1.areaKm2 =
          (finishDrawing { m with isDrawing := true, startPoint := some e } s).1.areaKm2 ∧
        (finishDrawing { m with isDrawing := true, startPoint := some s } e).2 =
          (finishDrawing { m with isDrawing := true, startPoint := some e } s).2 := by
  refine ⟨fun _ => rfl, fun m s e => ?_⟩
  have hb : latLngBoundsOf s e = latLngBoundsOf e s := by
    simp [latLngBoundsOf, max_comm, min_comm]
  constructor <;> simp only [finishDrawing, hb] <;>
    by_cases hc : (latLngBoundsOf e s).west = (latLngBoundsOf e s).east ∨
        (latLngBoundsOf e s).south = (latLngBoundsOf e s).north <;>
      simp [hc]

/-- C10: every bounds payload emitted by `finishDrawing` is normalized and
strictly non-degenerate: west < east and south < north. -/
theorem emitted_bounds_nondegenerate (m : MapState) (p : LatLng) (b : AOIBounds)
    (h : some b ∈ (finishDrawing m p).2) :
    b.west < b.east ∧ b.south < b.north := by
  unfold finishDrawing at h
  rcases hs : m.startPoint with _ | start
  · rw [hs] at h
    simp at h
  · rw [hs] at h
    rcases hd : m.isDrawing
    · rw [hd] at h
      simp at h
    · rw [hd] at h
      simp only [Bool.true_eq] at h
      by_cases hc : (latLngBoundsOf start p).west = (latLngBoundsOf start p).east ∨
          (latLngBoundsOf start p).south = (latLngBoundsOf start p).north
      · rw [if_pos hc] at h
        simp at h
      · rw [if_neg hc] at h
        simp at h
        push_neg at hc
        subst h
        constructor
        · exact lt_of_le_of_ne (min_le_max) hc.1
        · exact lt_of_le_of_ne (min_le_max) hc.2

/-- C10 witness: the concrete draw from (lat 1, lng 2) to (lat 2, lng 7)
emits the bounds (north 2, south 1, east 7, west 2), which satisfy
west < east and south < north. -/
theorem emitted_bounds_nondegenerate_witness :
    ({ north := 2, south := 1, east := 7, west := 2 } : AOIBounds).west <
        ({ north := 2, south := 1, east := 7, west := 2 } : AOIBounds).east ∧
      ({ north := 2, south := 1, east := 7, west := 2 } : AOIBounds).south <
        ({ north := 2, south := 1, east := 7, west := 2 } : AOIBounds).north :=
  emitted_bounds_nondegenerate drawingMapState { lat := 2, lng := 7 }
    { north := 2, south := 1, east := 7, west := 2 } (by decide)

/-- C6 counterexample: a non-2xx response whose parsed body has the detail
field present but equal to the empty string does not use that detail as the
message — JavaScript truthiness makes the handler fall back to the generic
message instead. -/
theorem non2xx_empty_detail_falls_back :
    analysisStateOf (resolveRequest loadingState
        (FetchOutcome.response false (Body.parsed (some "") sampleResult))) =
      AnalysisState.error unknownApiErrorMsg ∧
    analysisStateOf (resolveRequest loadingState
        (FetchOutcome.response false (Body.parsed (some "") sampleResult))) ≠
      AnalysisState.error "" := by
  constructor <;> decide

/-- C6 (amended): when the request resolves with a non-2xx status and the
body parses as JSON, the state goes from Loading to Error whose message is
the body's detail string field if present and non-empty, and otherwise the
generic fallback message; in particular a 500 with detail "model
unavailable" produces exactly that error message. -/
theorem non2xx_error_message (s : VizState)
    (hs : analysisStateOf s = AnalysisState.loading) :
    (∀ (d : String) (r : AnalysisResult), d ≠ "" →
      analysisStateOf (resolveRequest s
          (FetchOutcome.response false (Body.parsed (some d) r))) =
        AnalysisState.error d) ∧
    (∀ r : AnalysisResult,
      analysisStateOf (resolveRequest s
          (FetchOutcome.response false (Body.parsed none r))) =
        AnalysisState.error unknownApiErrorMsg) ∧
    (∀ r : AnalysisResult,
      analysisStateOf (resolveRequest s
          (FetchOutcome.response false (Body.parsed (some "model unavailable") r))) =
        AnalysisState.error "model unavailable") := by
  refine ⟨fun d r hd => ?_, fun r => ?_, fun r => ?_⟩
  · simp [resolveRequest, analysisStateOf, errorMessageFor, hd]
  · simp [resolveRequest, analysisStateOf, errorMessageFor]
  · simp [resolveRequest, analysisStateOf, errorMessageFor]

/-- C6 witness: from the concrete in-flight state, an HTTP error response
with detail "model unavailable" yields exactly that error state. -/
theorem non2xx_error_message_witness :
    analysisStateOf (resolveRequest loadingState
        (FetchOutcome.response false (Body.parsed (some "model unavailable") sampleResult))) =
      AnalysisState.error "model unavailable" :=
  (non2xx_error_message loadingState rfl).2.2 sampleResult

/-- The cosine factor of the scenario-1 (Pune sample) area lies between
0.9472 and 0.9484: a degree-2 Taylor bound on cosine together with
explicit bounds on pi. -/
theorem cos_pune_bounds :
    (9472 : ℝ)/10000 ≤ Real.cos (1851/100 * Real.pi / 180) ∧
      Real.cos (1851/100 * Real.pi / 180) ≤ 9484/10000 := by
  have hpil := Real.pi_gt_d6
  have hpiu := Real.pi_lt_d6
  set x : ℝ := 1851/100 * Real.pi / 180 with hxdef
  have hx0 : 0 ≤ x := by
    rw [hxdef]
    positivity
  have hxl : (32306 : ℝ)/100000 ≤ x := by
    rw [hxdef]
    linarith
  have hxu : x ≤ (32307 : ℝ)/100000 := by
    rw [hxdef]
    linarith
  have hx1 : |x| ≤ 1 := by
    rw [abs_of_nonneg hx0]
    linarith
  have hcb := abs_le.mp (Real.cos_bound hx1)
  rw [abs_of_nonneg hx0] at hcb
  have hx2l : (104367 : ℝ)/1000000 ≤ x^2 := by
    nlinarith [sq_nonneg (x - 32306/100000)]
  have hx2u : x^2 ≤ (104375 : ℝ)/1000000 := by
    nlinarith [sq_nonneg (x - 32307/100000)]
  have hx4u : x^4 ≤ (108942 : ℝ)/10000000 := by
    nlinarith [sq_nonneg x, sq_nonneg (x^2 - 104375/1000000)]
  constructor
  · linarith [hcb.1]
  · linarith [hcb.2]

/-- The raw area product of the Pune sample bounds, in closed form:
2.22 * 2.22 * cos(18.51 degrees in radians). -/
theorem rawAreaKm2_pune_eq :
    rawAreaKm2 puneBounds = 49284/10000 * Real.cos (1851/100 * Real.pi / 180) := by
  have h1 : ((18.52 : ℚ) : ℝ) - ((18.50 : ℚ) : ℝ) = 2/100 := by norm_num
  have h2 : ((73.82 : ℚ) : ℝ) - ((73.80 : ℚ) : ℝ) = 2/100 := by norm_num
  have h3 : (((18.50 : ℚ) : ℝ) + ((18.52 : ℚ) : ℝ)) / 2 * Real.pi / 180 =
      1851/100 * Real.pi / 180 := by
    have h4 : ((18.50 : ℚ) : ℝ) + ((18.52 : ℚ) : ℝ) = 3702/100 := by norm_num
    rw [h4]
    ring
  have h5 : |(2 : ℝ)/100| = 2/100 := abs_of_nonneg (by norm_num)
  simp only [rawAreaKm2, puneBounds]
  rw [h1, h2, h3, h5]
  ring

/-- The committed Pune sample area display value is exactly 4.67. -/
theorem areaKm2Of_pune_eq : areaKm2Of puneBounds = 467/100 := by
  have hc := cos_pune_bounds
  have hr := rawAreaKm2_pune_eq
  have hl : (4665 : ℝ)/1000 ≤ rawAreaKm2 puneBounds := by
    rw [hr]
    linarith [hc.1]
  have hu : rawAreaKm2 puneBounds < (4675 : ℝ)/1000 := by
    rw [hr]
    linarith [hc.2]
  have hround : round (rawAreaKm2 puneBounds * 100) = 467 := by
    rw [round_eq, Int.floor_eq_iff]
    constructor
    · push_cast
      linarith
    · push_cast
      linarith
  unfold areaKm2Of round2
  rw [hround]
  norm_num

/-- C4 counterexample: the scenario-1 bounds (west 73.80, south 18.50,
east 73.82, north 18.52) produce a committed area of 4.67 km², not
approximately 4.68 km² as claimed. -/
theorem pune_area_not_468 :
    areaKm2Of puneBounds = 467/100 ∧ areaKm2Of puneBounds ≠ 468/100 := by
  refine ⟨areaKm2Of_pune_eq, ?_⟩
  rw [areaKm2Of_pune_eq]
  norm_num

/-- C4 (amended): for every non-degenerate bounds the committed area equals
the spec formula round(|north - south| * 111 * |east - west| * 111 *
cos(((north + south)/2) * PI/180), 2 decimal places); for the scenario-1
bounds this value is 4.67 km² (not 4.68 km²). -/
theorem area_matches_spec_formula :
    (∀ b : AOIBounds, b.west ≠ b.east → b.south ≠ b.north →
      areaKm2Of b = areaSpec b) ∧
    areaKm2Of puneBounds = 467/100 := by
  refine ⟨fun b _ _ => ?_, areaKm2Of_pune_eq⟩
  unfold areaKm2Of areaSpec rawAreaKm2
  have h : ((b.south : ℝ) + (b.north : ℝ)) / 2 * Real.pi / 180 =
      ((b.north : ℝ) + (b.south : ℝ)) / 2 * Real.pi / 180 := by ring
  rw [h]

/-- C4 witness: at the scenario-1 bounds, the source computation and the
spec formula agree. -/
theorem area_matches_spec_formula_witness :
    areaKm2Of puneBounds = areaSpec puneBounds :=
  area_matches_spec_formula.1 puneBounds
    (by simp only [puneBounds]; norm_num) (by simp only [puneBounds]; norm_num)
